import Mathlib

/-!
Verification of the modelsocket-go client core: a shallow embedding of the
connection multiplexer, the sequence state machine and the generation stream,
translated from `client.go`, `seq.go`, the stream implementation shipped with
`stream_test.go`, the option builders and the wire-format definitions.

Conventions of the embedding:
* Go structs become Lean structures; Go `int` becomes `Int`; Go maps become
  association lists with unique keys.
* Blocking operations (which wait on a one-shot channel) are functions that
  take the event the waiter eventually receives as a parameter; the send path
  takes an `Option MsError` parameter standing for the result of
  `client.send`.
* Client-side generated UUIDs are explicit `cid` parameters.
* Channels: a Go channel of capacity 1 is an `Option MSEvent` slot; the
  GenStream chunk channel is a list (its buffered contents) together with a
  closed flag; a completed blocking send onto it is an append.
* `Next`'s three-way `select` is nondeterministic in Go when several cases
  are ready, so it is embedded as a step relation, not a function.
-/

namespace ModelSocketGo

/-- Error values from `errors.go`: the sentinel errors, `ProtocolError`,
`SeqError`, plus `context.Canceled` (`cancelled`) which the Go code returns
through `ctx.Err()`. -/
inductive MsError where
  | errClosed
  | errSeqClosed
  | errTimeout
  | errInvalidState
  | errToolNotFound
  | errUnexpectedEvent
  | errBufferFull
  | cancelled
  | protocol (message seqId cid : String)
  | seqErr (seqId message : String)
  deriving DecidableEq, Repr

/-- Wire form of a tool call inside a `seq_tool_call` event (`SeqToolCall`). -/
structure SeqToolCallW where
  name : String := ""
  args : String := ""
  deriving DecidableEq, Repr

/-- Inbound event record (`MSEvent` in the Go source); absent JSON fields are
the Go zero values, reflected here as defaults. -/
structure MSEvent where
  event : String
  seqId : String := ""
  cid : String := ""
  text : String := ""
  hidden : Bool := false
  numInputTokens : Int := 0
  numOutputTokens : Int := 0
  tokens : List Int := []
  toolCalls : List SeqToolCallW := []
  childSeqId : String := ""
  state : String := ""
  inputTokens : Int := 0
  outputTokens : Int := 0
  durationMs : Int := 0
  errorMsg : String := ""
  message : String := ""
  deriving DecidableEq, Repr

def MSEvent.isSeqOpened (e : MSEvent) : Bool := e.event == "seq_opened"

def MSEvent.isSeqText (e : MSEvent) : Bool := e.event == "seq_text"

def MSEvent.isSeqToolCall (e : MSEvent) : Bool := e.event == "seq_tool_call"

def MSEvent.isSeqAppendFinish (e : MSEvent) : Bool := e.event == "seq_append_finish"

def MSEvent.isSeqGenFinish (e : MSEvent) : Bool := e.event == "seq_gen_finish"

def MSEvent.isSeqForkFinish (e : MSEvent) : Bool := e.event == "seq_fork_finish"

def MSEvent.isSeqState (e : MSEvent) : Bool := e.event == "seq_state"

def MSEvent.isSeqClosed (e : MSEvent) : Bool := e.event == "seq_closed"

def MSEvent.isError (e : MSEvent) : Bool := e.event == "error"

/-- User-facing tool call record (`ToolCall` in the stream source). -/
structure ToolCallC where
  name : String := ""
  args : String := ""
  deriving DecidableEq, Repr

/-- A chunk of generated content (`GenChunk`). -/
structure GenChunk where
  text : String := ""
  hidden : Bool := false
  tokens : List Int := []
  toolCalls : List ToolCallC := []
  deriving DecidableEq, Repr

/-- State of a `GenStream`: the chunk channel is `buffer` (its buffered,
not-yet-consumed contents) plus `chunksClosed`; `doneClosed` is the `done`
signal channel; `closeOnceDone` is the `closeOnce` latch. -/
structure GenStreamSt where
  cid : String
  buffer : List GenChunk := []
  chunksClosed : Bool := false
  doneClosed : Bool := false
  err : Option MsError := none
  finished : Bool := false
  closeOnceDone : Bool := false
  inputTokens : Int := 0
  outputTokens : Int := 0
  deriving DecidableEq, Repr

/-- `newGenStream` (the `seq` back-reference is not part of the stream's own
observable state and the tests construct streams with a nil sequence). -/
def newGenStream (cid : String) : GenStreamSt := { cid := cid }

/-- `GenStream.handleText`: drop if finished; otherwise the blocking send of
the chunk onto the channel, raced against `done`. A send that completes is an
append; if `done` is closed the chunk is dropped. -/
def GenStreamSt.handleText (g : GenStreamSt) (event : MSEvent) : GenStreamSt :=
  if g.finished then g
  else
    let chunk : GenChunk := { text := event.text, hidden := event.hidden, tokens := event.tokens }
    if g.doneClosed then g else { g with buffer := g.buffer ++ [chunk] }

/-- `GenStream.handleToolCall`: converts the wire tool calls and sends a
chunk carrying only `ToolCalls`, same channel discipline as `handleText`. -/
def GenStreamSt.handleToolCall (g : GenStreamSt) (event : MSEvent) : GenStreamSt :=
  if g.finished then g
  else
    let chunk : GenChunk :=
      { toolCalls := event.toolCalls.map (fun tc => { name := tc.name, args := tc.args }) }
    if g.doneClosed then g else { g with buffer := g.buffer ++ [chunk] }

/-- `GenStream.handleFinish`: inside `closeOnce.Do`, record token counts,
mark finished, close both channels. -/
def GenStreamSt.handleFinish (g : GenStreamSt) (event : MSEvent) : GenStreamSt :=
  if g.closeOnceDone then g
  else
    { g with closeOnceDone := true, finished := true,
             inputTokens := event.inputTokens, outputTokens := event.outputTokens,
             chunksClosed := true, doneClosed := true }

/-- `GenStream.handleClose`: inside `closeOnce.Do`, record `ErrSeqClosed`,
mark finished, close both channels. -/
def GenStreamSt.handleClose (g : GenStreamSt) : GenStreamSt :=
  if g.closeOnceDone then g
  else
    { g with closeOnceDone := true, finished := true, err := some .errSeqClosed,
             chunksClosed := true, doneClosed := true }

/-- Result of one `GenStream.Next` call: a chunk, or the `(nil, err)` return
(`err = none` is the end-of-stream sentinel `(nil, nil)`). -/
inductive NextRes where
  | chunk (c : GenChunk)
  | done (e : Option MsError)
  deriving DecidableEq, Repr

/-- One completed `GenStream.Next` call, as a relation because Go's `select`
chooses uniformly among the ready cases. The boolean is whether the caller's
context is already cancelled. Ready cases: `ctx.Done()` when cancelled;
receive on `chunks` when a chunk is buffered or the channel is closed;
receive on `done` when it is closed (after which `Next` drains one buffered
chunk if present, else returns `g.err`). A call with no ready case blocks and
is not a step of this relation. -/
inductive NextStep : Bool → GenStreamSt → NextRes × GenStreamSt → Prop where
  | cancel (g : GenStreamSt) :
      NextStep true g (.done (some .cancelled), g)
  | recvChunk (cc : Bool) (g : GenStreamSt) (c : GenChunk) (rest : List GenChunk)
      (h : g.buffer = c :: rest) :
      NextStep cc g (.chunk c, { g with buffer := rest })
  | recvClosed (cc : Bool) (g : GenStreamSt)
      (h1 : g.buffer = []) (h2 : g.chunksClosed = true) :
      NextStep cc g (.done g.err, g)
  | recvDoneDrain (cc : Bool) (g : GenStreamSt) (c : GenChunk) (rest : List GenChunk)
      (hd : g.doneClosed = true) (h : g.buffer = c :: rest) :
      NextStep cc g (.chunk c, { g with buffer := rest })
  | recvDoneEmpty (cc : Bool) (g : GenStreamSt)
      (hd : g.doneClosed = true) (h : g.buffer = []) :
      NextStep cc g (.done g.err, g)

/-- The consumer loop of `Text` run to completion on a terminated stream
(every `Next` is then deterministic: drain the buffer in order, then return
`g.err`): accumulate `chunk.Text` for non-hidden chunks, stop on the end
sentinel or on an error. -/
def textLoopAux : List GenChunk → Option MsError → String → String × Option MsError
  | [], e, acc => (acc, e)
  | c :: rest, e, acc => textLoopAux rest e (if !c.hidden then acc ++ c.text else acc)

/-- `GenStream.Text` on a terminated stream holding `g.buffer` undelivered. -/
def GenStreamSt.textRun (g : GenStreamSt) : String × Option MsError :=
  textLoopAux g.buffer g.err ""

/-- The consumer loop of `TextAndTokens` run to completion on a terminated
stream: text skips hidden chunks, tokens are appended unconditionally. -/
def textTokensAux : List GenChunk → Option MsError → String → List Int →
    (String × List Int) × Option MsError
  | [], e, acc, toks => ((acc, toks), e)
  | c :: rest, e, acc, toks =>
      textTokensAux rest e (if !c.hidden then acc ++ c.text else acc) (toks ++ c.tokens)

/-- `GenStream.TextAndTokens` on a terminated stream. -/
def GenStreamSt.textTokensRun (g : GenStreamSt) : (String × List Int) × Option MsError :=
  textTokensAux g.buffer g.err "" []

/-- Spec-side restatement (for the accumulation laws): the concatenation, in
delivery order, of `chunk.text` over exactly the chunks whose hidden flag is
false. -/
def specVisibleText (cs : List GenChunk) : String :=
  String.join ((cs.filter (fun c => c.hidden = false)).map GenChunk.text)

/-- Spec-side restatement: the concatenation of the `Tokens` fields of all
chunks, hidden or not. -/
def specAllTokens (cs : List GenChunk) : List Int :=
  (cs.map GenChunk.tokens).flatten

/-- The terminal outcome a consumer observes once the stream is terminated:
`Next` on the closed channel returns `(nil, g.err)`, so `err = none` is the
end sentinel (with the recorded token counts) and `some e` is the error. -/
inductive TermObs where
  | endOut (inputTokens outputTokens : Int)
  | errOut (e : MsError)
  deriving DecidableEq, Repr

def GenStreamSt.terminalObs (g : GenStreamSt) : Option TermObs :=
  if g.closeOnceDone then
    match g.err with
    | some e => some (.errOut e)
    | none => some (.endOut g.inputTokens g.outputTokens)
  else none

/-- A call into the stream's terminal handlers, for reasoning about arbitrary
interleavings of `handleFinish` and `handleClose`. -/
inductive TermCall where
  | finishCall (event : MSEvent)
  | closeCall
  deriving Repr

def applyTermCall (g : GenStreamSt) : TermCall → GenStreamSt
  | .finishCall e => g.handleFinish e
  | .closeCall => g.handleClose

def applyTermCalls (g : GenStreamSt) (cs : List TermCall) : GenStreamSt :=
  cs.foldl applyTermCall g

/-- Toolbox state (`tools.go`): the core treats it as an opaque passthrough;
only the instruction strings matter to the connection layer. -/
structure ToolboxSt where
  toolInstructions : String := ""
  toolDefinitionPrompt : String := ""
  deriving DecidableEq, Repr

/-- `SeqOpenData` from the wire-format source. -/
structure SeqOpenData where
  model : String := ""
  toolsEnabled : Bool := false
  toolPrompt : String := ""
  skipPrelude : Bool := false
  deriving DecidableEq, Repr

/-- `openConfig` from the options source; `toolbox` is a `*Toolbox`. -/
structure OpenConfig where
  toolPrompt : String := ""
  skipPrelude : Bool := false
  toolbox : Option ToolboxSt := none
  deriving DecidableEq, Repr

/-- The `seq_open` request body built inside `Client.Open` (client.go lines
86-94): `ToolsEnabled` iff a toolbox is present, `ToolPrompt` copied from the
toolbox's instructions when non-empty. -/
def buildOpenData (model : String) (cfg : OpenConfig) : SeqOpenData :=
  let data : SeqOpenData :=
    { model := model, skipPrelude := cfg.skipPrelude,
      toolsEnabled := cfg.toolbox.isSome }
  match cfg.toolbox with
  | some tb => if tb.toolInstructions ≠ "" then { data with toolPrompt := tb.toolInstructions } else data
  | none => data

/-- `SeqAppendData`. -/
structure SeqAppendData where
  text : String := ""
  role : String := ""
  echo : Bool := false
  hidden : Bool := false
  deriving DecidableEq, Repr

/-- `appendConfig`. -/
structure AppendConfig where
  role : String := ""
  echo : Bool := false
  deriving DecidableEq, Repr

/-- `SeqGenData`; `*float64` fields become `Option Float`. -/
structure SeqGenData where
  role : String := ""
  maxTokens : Option Int := none
  maxLength : Option Int := none
  temperature : Option Float := none
  topP : Option Float := none
  topK : Option Int := none
  repeatPenalty : Option Float := none
  seed : Option Int := none
  stopStrings : List String := []
  regexMask : Option String := none
  hidden : Bool := false
  prefillText : Option String := none
  returnTokens : Option Bool := none
  deriving Repr

/-- `genConfig`. -/
structure GenConfig where
  role : String := ""
  maxTokens : Option Int := none
  maxLength : Option Int := none
  temperature : Option Float := none
  topP : Option Float := none
  topK : Option Int := none
  repeatPenalty : Option Float := none
  seed : Option Int := none
  stopStrings : List String := []
  regexMask : Option String := none
  hidden : Bool := false
  deriving Repr

/-- `genConfig.toSeqGenData`. -/
def GenConfig.toSeqGenData (c : GenConfig) : SeqGenData :=
  { role := c.role, maxTokens := c.maxTokens, maxLength := c.maxLength,
    temperature := c.temperature, topP := c.topP, topK := c.topK,
    repeatPenalty := c.repeatPenalty, seed := c.seed,
    stopStrings := c.stopStrings, regexMask := c.regexMask, hidden := c.hidden }

/-- `ToolResult`. -/
structure ToolResult where
  name : String := ""
  result : String := ""
  deriving DecidableEq, Repr

/-- The `data` payload of an outbound request, one constructor per command
wrapper in the wire-format source. -/
inductive RequestData where
  | seqOpen (d : SeqOpenData)
  | appendCmd (d : SeqAppendData)
  | genCmd (d : SeqGenData)
  | closeCmd
  | forkCmd
  | toolReturnCmd (results : List ToolResult) (genOpts : SeqGenData)
  deriving Repr

/-- Outbound request envelope (`MSRequest`). -/
structure MSRequest where
  request : String
  cid : String
  seqId : String := ""
  data : RequestData
  deriving Repr

def newSeqOpenRequest (cid : String) (data : SeqOpenData) : MSRequest :=
  { request := "seq_open", cid := cid, data := .seqOpen data }

def newAppendRequest (cid seqId : String) (data : SeqAppendData) : MSRequest :=
  { request := "seq_command", cid := cid, seqId := seqId, data := .appendCmd data }

def newGenRequest (cid seqId : String) (data : SeqGenData) : MSRequest :=
  { request := "seq_command", cid := cid, seqId := seqId, data := .genCmd data }

def newCloseRequest (cid seqId : String) : MSRequest :=
  { request := "seq_command", cid := cid, seqId := seqId, data := .closeCmd }

def newForkRequest (cid seqId : String) : MSRequest :=
  { request := "seq_command", cid := cid, seqId := seqId, data := .forkCmd }

def newToolReturnRequest (cid seqId : String) (results : List ToolResult)
    (genOpts : SeqGenData) : MSRequest :=
  { request := "seq_command", cid := cid, seqId := seqId,
    data := .toolReturnCmd results genOpts }

/-- Sequence state (`Seq`): the mu-guarded fields, the command-waiter map
(each value a capacity-1 channel: `none` = empty slot), and the active
generation stream held inline. -/
structure SeqSt where
  id : String
  toolbox : Option ToolboxSt := none
  state : String := "ready"
  closed : Bool := false
  closeErr : Option MsError := none
  commands : List (String × Option MSEvent) := []
  genStream : Option GenStreamSt := none
  deriving DecidableEq, Repr

/-- `newSeq` (the client back-reference lives in the client map). -/
def newSeq (id : String) (toolbox : Option ToolboxSt) : SeqSt :=
  { id := id, toolbox := toolbox, state := "ready" }

/-- Outputs of a blocking sequence operation: its return value, the frames it
handed to `client.send`, and the command waiters it registered. -/
structure OpOut (α : Type) where
  result : Except MsError α
  sent : List MSRequest := []
  registered : List String := []

/-- `Seq.Append`: fail fast when closed; otherwise register a waiter, send,
and interpret the event the waiter receives. The waiter is unregistered on
exit (`defer`), so the command map is unchanged on return. -/
def SeqSt.append (s : SeqSt) (cid : String) (cfg : AppendConfig) (text : String)
    (sendErr : Option MsError) (event : MSEvent) : OpOut Unit :=
  if s.closed then { result := .error .errSeqClosed }
  else
    let data : SeqAppendData := { text := text, role := cfg.role, echo := cfg.echo }
    let req := newAppendRequest cid s.id data
    match sendErr with
    | some err => { result := .error err, sent := [req], registered := [cid] }
    | none =>
      if event.isError then
        { result := .error (.protocol event.message event.seqId event.cid),
          sent := [req], registered := [cid] }
      else { result := .ok (), sent := [req], registered := [cid] }

/-- Outputs of `Seq.Generate`: its return value, the updated sequence state,
and the frames handed to `client.send`. -/
structure GenOut where
  result : Except MsError GenStreamSt
  seq : SeqSt
  sent : List MSRequest := []

/-- `Seq.Generate`: fail fast when closed; otherwise create a fresh stream,
publish it as the active stream, send the `gen` command; on send failure
clear the active stream again. -/
def SeqSt.generate (s : SeqSt) (cid : String) (cfg : GenConfig)
    (sendErr : Option MsError) : GenOut :=
  if s.closed then { result := .error .errSeqClosed, seq := s }
  else
    let stream := newGenStream cid
    let s1 := { s with genStream := some stream }
    let req := newGenRequest cid s.id cfg.toSeqGenData
    match sendErr with
    | some err => { result := .error err, seq := { s1 with genStream := none }, sent := [req] }
    | none => { result := .ok stream, seq := s1, sent := [req] }

/-- `Seq.ToolReturn`: fail fast when closed; otherwise fire-and-forget send
of the `tool_return` command (no waiter registered). -/
def SeqSt.toolReturn (s : SeqSt) (cid : String) (results : List ToolResult)
    (sendErr : Option MsError) : OpOut Unit :=
  if s.closed then { result := .error .errSeqClosed }
  else
    let req := newToolReturnRequest cid s.id results {}
    match sendErr with
    | some err => { result := .error err, sent := [req] }
    | none => { result := .ok (), sent := [req] }

/-- `Seq.Close`: if already closed, return ok immediately (no frame, no
waiter); otherwise register a waiter, send the `close` command and interpret
the completion event. -/
def SeqSt.close (s : SeqSt) (cid : String) (sendErr : Option MsError)
    (event : MSEvent) : OpOut Unit :=
  if s.closed then { result := .ok () }
  else
    let req := newCloseRequest cid s.id
    match sendErr with
    | some err => { result := .error err, sent := [req], registered := [cid] }
    | none =>
      if event.isError then
        { result := .error (.protocol event.message event.seqId event.cid),
          sent := [req], registered := [cid] }
      else { result := .ok (), sent := [req], registered := [cid] }

/-- Outputs of `Seq.handleClose`: the updated sequence, the detached and
aborted stream (if one was active), and whether `client.removeSeq` ran. -/
structure CloseOut where
  seq : SeqSt
  aborted : Option GenStreamSt := none
  removed : Bool := false
  deriving DecidableEq, Repr

/-- `Seq.handleClose`: idempotent close propagation. When not yet closed:
set closed, state `closed`, record a `SeqError` if the event carried an error
message, detach the active stream, abort it outside the lock, remove the
sequence from the client. `event = none` is the synthetic close from
`Client.Close`. -/
def SeqSt.handleClose (s : SeqSt) (event : Option MSEvent) : CloseOut :=
  if s.closed then { seq := s }
  else
    let closeErr :=
      match event with
      | some e => if e.errorMsg ≠ "" then some (MsError.seqErr s.id e.errorMsg) else s.closeErr
      | none => s.closeErr
    let stream := s.genStream
    let s1 := { s with closed := true, state := "closed", closeErr := closeErr,
                       genStream := none }
    { seq := s1, aborted := stream.map GenStreamSt.handleClose, removed := true }

/-- Non-blocking delivery into a capacity-1 command waiter slot: fill the
slot for the event's cid if registered and empty, otherwise drop. -/
def deliverCommand (cmds : List (String × Option MSEvent)) (e : MSEvent) :
    List (String × Option MSEvent) :=
  cmds.map (fun p => if p.1 = e.cid ∧ p.2 = none then (p.1, some e) else p)

/-- Outputs of `Seq.handleEvent`: the updated sequence, the stream detached
and finished by a matching `seq_gen_finish` (if any), the stream detached and
aborted by a `seq_closed` (if any), and whether the sequence was removed from
the client. -/
structure EventOut where
  seq : SeqSt
  finished : Option GenStreamSt := none
  aborted : Option GenStreamSt := none
  removed : Bool := false
  deriving DecidableEq, Repr

/-- The `seq_state` block of `Seq.handleEvent`. -/
def hevState (s : SeqSt) (e : MSEvent) : SeqSt :=
  if e.isSeqState then { s with state := e.state } else s

/-- The `seq_text` block of `Seq.handleEvent`: route to the active stream. -/
def hevText (s : SeqSt) (e : MSEvent) : SeqSt :=
  if e.isSeqText then
    match s.genStream with
    | some g => { s with genStream := some (g.handleText e) }
    | none => s
  else s

/-- The `seq_tool_call` block of `Seq.handleEvent`. -/
def hevToolCall (s : SeqSt) (e : MSEvent) : SeqSt :=
  if e.isSeqToolCall then
    match s.genStream with
    | some g => { s with genStream := some (g.handleToolCall e) }
    | none => s
  else s

/-- The `seq_gen_finish` block of `Seq.handleEvent`: detach and finish the
active stream only when its command id matches the event's. -/
def hevGenFinish (s : SeqSt) (e : MSEvent) : SeqSt × Option GenStreamSt :=
  if e.isSeqGenFinish then
    match s.genStream with
    | some g =>
        if g.cid = e.cid then ({ s with genStream := none }, some (g.handleFinish e))
        else (s, none)
    | none => (s, none)
  else (s, none)

/-- The command-completion block of `Seq.handleEvent`. -/
def hevCommands (s : SeqSt) (e : MSEvent) : SeqSt :=
  if e.cid ≠ "" then { s with commands := deliverCommand s.commands e } else s

/-- `Seq.handleEvent`: the five dispatch blocks run in source order on every
event targeting this sequence. -/
def SeqSt.handleEvent (s : SeqSt) (e : MSEvent) : EventOut :=
  let s1 := hevState s e
  let s2 := hevText s1 e
  let s3 := hevToolCall s2 e
  let (s4, fin) := hevGenFinish s3 e
  let s5 := hevCommands s4 e
  if e.isSeqClosed then
    let co := s5.handleClose (some e)
    { seq := co.seq, finished := fin, aborted := co.aborted, removed := co.removed }
  else { seq := s5, finished := fin }

/-- Association-list lookup standing for a Go map read. -/
def mapLookup {α : Type} (m : List (String × α)) (k : String) : Option α :=
  match m with
  | [] => none
  | p :: rest => if p.1 = k then some p.2 else mapLookup rest k

/-- Association-list insert standing for a Go map write. -/
def mapInsert {α : Type} (m : List (String × α)) (k : String) (v : α) :
    List (String × α) :=
  match m with
  | [] => [(k, v)]
  | p :: rest => if p.1 = k then (k, v) :: rest else p :: mapInsert rest k v

/-- Client state (`Client`): the sequence map, the pending-open cids, and the
closed flag with terminal error. -/
structure ClientSt where
  seqs : List (String × SeqSt) := []
  pending : List String := []
  closed : Bool := false
  closeErr : Option MsError := none
  deriving DecidableEq, Repr

/-- `Seq.Fork`: fail fast when closed; otherwise register a waiter, send the
`fork` command and interpret the completion event: `error` events give a
`ProtocolError`, a non-`seq_fork_finish` event gives `ErrUnexpectedEvent`,
and `seq_fork_finish` constructs the child sequence with the same toolbox and
registers it in the client's sequence map. -/
def SeqSt.fork (s : SeqSt) (c : ClientSt) (cid : String) (sendErr : Option MsError)
    (event : MSEvent) : OpOut SeqSt × ClientSt :=
  if s.closed then ({ result := .error .errSeqClosed }, c)
  else
    let req := newForkRequest cid s.id
    match sendErr with
    | some err => ({ result := .error err, sent := [req], registered := [cid] }, c)
    | none =>
      if event.isError then
        ({ result := .error (.protocol event.message event.seqId event.cid),
           sent := [req], registered := [cid] }, c)
      else if !event.isSeqForkFinish then
        ({ result := .error .errUnexpectedEvent, sent := [req], registered := [cid] }, c)
      else
        let forked := newSeq event.childSeqId s.toolbox
        ({ result := .ok forked, sent := [req], registered := [cid] },
         { c with seqs := mapInsert c.seqs forked.id forked })

/-- Where `Client.routeEvent` dispatches an inbound event. -/
inductive RouteDest where
  | pendingOpen (cid : String)
  | toSeq (id : String)
  | drop
  deriving DecidableEq, Repr

/-- `Client.routeEvent` dispatch: `seq_opened` goes to the pending-open slot;
an `error` with a cid matching a pending open goes there too; otherwise an
event with a non-empty sequence id goes to that sequence if registered. -/
def ClientSt.routeTarget (c : ClientSt) (e : MSEvent) : RouteDest :=
  if e.isSeqOpened then .pendingOpen e.cid
  else if e.isError ∧ e.cid ≠ "" ∧ e.cid ∈ c.pending then .pendingOpen e.cid
  else if e.seqId = "" then .drop
  else
    match mapLookup c.seqs e.seqId with
    | some _ => .toSeq e.seqId
    | none => .drop

/-- Outputs of `Client.Close`: its return value (`none` = nil error), the
updated client, whether `transport.Close` ran, and the per-sequence close
propagation results. -/
structure ClientCloseOut where
  result : Option MsError
  client : ClientSt
  transportClosed : Bool := false
  propagated : List (String × CloseOut) := []

/-- `Client.Close`: if already closed return nil immediately (transport not
re-closed, no propagation); otherwise mark closed, run `handleClose nil` on
every sequence (each removes itself from the map), close the transport and
return its error. -/
def ClientSt.closeConn (c : ClientSt) (transportErr : Option MsError) : ClientCloseOut :=
  if c.closed then { result := none, client := c }
  else
    let props := c.seqs.map (fun p => (p.1, p.2.handleClose none))
    let remaining := (props.filter (fun p => p.2.removed = false)).map (fun p => (p.1, p.2.seq))
    { result := transportErr,
      client := { c with closed := true, seqs := remaining },
      transportClosed := true,
      propagated := props }

/-- The first critical section of `Seq.Generate` (seq.go lines 102-107):
one lock acquisition that only reads the closed flag; `true` aborts the call
with SequenceClosed before any stream or frame exists. -/
def SeqSt.generateCheckClosed (s : SeqSt) : Bool := s.closed

/-- The second critical section of `Seq.Generate` (seq.go lines 119-121): a
separate lock acquisition that publishes the freshly built stream as the
active stream. The lock is released between the two critical sections, so
event handlers — in particular `handleClose` — may run in between. -/
def SeqSt.generatePublish (s : SeqSt) (cid : String) : SeqSt :=
  { s with genStream := some (newGenStream cid) }

/-- `WithToolPrompt` from the options source. -/
def withToolPrompt (prompt : String) (c : OpenConfig) : OpenConfig :=
  { c with toolPrompt := prompt }

/- Concrete instances used by witnesses and counterexamples. -/

def c1seq : SeqSt := { newSeq "s1" none with genStream := some (newGenStream "gcid") }

def c1evMatch : MSEvent :=
  { event := "seq_gen_finish", seqId := "s1", cid := "gcid", inputTokens := 10, outputTokens := 5 }

def c1evOther : MSEvent := { event := "seq_gen_finish", seqId := "s1", cid := "trcid" }

def c2gen1 : GenOut := (newSeq "s1" none).generate "cid1" {} none

def c2gen2 : GenOut := c2gen1.seq.generate "cid2" {} none

def c2textEv : MSEvent := { event := "seq_text", seqId := "s1", cid := "cid1", text := "hello" }

def c2after : SeqSt := (c2gen2.seq.handleEvent c2textEv).seq

def c4stream : GenStreamSt :=
  ((((newGenStream "cid-1").handleText { event := "seq_text", text := "visible" }).handleText
      { event := "seq_text", text := "hidden", hidden := true }).handleText
      { event := "seq_text", text := "visible2" }).handleFinish
    { event := "seq_gen_finish", cid := "cid-1" }

def c9stream : GenStreamSt :=
  (((newGenStream "cid-1").handleText
      { event := "seq_text", text := "A", tokens := [1] }).handleText
      { event := "seq_text", text := "B", hidden := true, tokens := [2, 3] }).handleFinish
    { event := "seq_gen_finish", cid := "cid-1" }

def c5seq : SeqSt := { newSeq "s1" none with closed := true }

def c5client : ClientSt := { closed := true }

def c6closedSeq : SeqSt :=
  ((newSeq "s1" none).handleEvent { event := "seq_closed", seqId := "s1" }).seq

def c6openSeq : SeqSt := newSeq "s1" none

def c6closedEv : MSEvent := { event := "seq_closed", seqId := "s1" }

def c6raceSeq : SeqSt :=
  ((c6openSeq.handleClose (some c6closedEv)).seq).generatePublish "cid1"

def c7g : GenStreamSt := { newGenStream "cid-1" with buffer := [{ text := "buffered" }] }

def c8toolbox : Option ToolboxSt := some { toolInstructions := "use tools" }

def c8seq : SeqSt := newSeq "s1" c8toolbox

def c8client : ClientSt := { seqs := [("s1", c8seq)] }

def c8forkEv : MSEvent :=
  { event := "seq_fork_finish", seqId := "s1", cid := "cid-f", childSeqId := "s2" }

def c8errEv : MSEvent := { event := "error", seqId := "s1", cid := "cid-f", message := "boom" }

def c8otherEv : MSEvent := { event := "seq_append_finish", seqId := "s1", cid := "cid-f" }

def c8textEv : MSEvent := { event := "seq_text", seqId := "s2", text := "hi" }

/-! ## Helper lemmas -/

theorem handleClose_latch (g : GenStreamSt) : g.handleClose.closeOnceDone = true := by
  unfold GenStreamSt.handleClose
  split
  · assumption
  · rfl

theorem applyTermCall_latched (g : GenStreamSt) (c : TermCall)
    (h : g.closeOnceDone = true) : applyTermCall g c = g := by
  cases c <;> simp [applyTermCall, GenStreamSt.handleFinish, GenStreamSt.handleClose, h]

theorem applyTermCalls_latched (cs : List TermCall) (g : GenStreamSt)
    (h : g.closeOnceDone = true) : applyTermCalls g cs = g := by
  induction cs with
  | nil => rfl
  | cons c rest ih =>
      show applyTermCalls (applyTermCall g c) rest = g
      rw [applyTermCall_latched g c h]
      exact ih

theorem applyTermCall_sets_latch (g : GenStreamSt) (c : TermCall) :
    (applyTermCall g c).closeOnceDone = true := by
  cases c with
  | finishCall e =>
      show (g.handleFinish e).closeOnceDone = true
      unfold GenStreamSt.handleFinish
      split
      · assumption
      · rfl
  | closeCall => exact handleClose_latch g

theorem hevCommands_genStream (s : SeqSt) (e : MSEvent) :
    (hevCommands s e).genStream = s.genStream := by
  unfold hevCommands; split <;> rfl

theorem generate_seq_closed (s : SeqSt) (cid : String) (cfg : GenConfig)
    (se : Option MsError) : ((s.generate cid cfg se).seq).closed = s.closed := by
  unfold SeqSt.generate
  split
  · rfl
  · split <;> rfl

theorem strFoldlAppend (l : List String) (a : String) :
    l.foldl (fun r s => r ++ s) a = a ++ l.foldl (fun r s => r ++ s) "" := by
  induction l generalizing a with
  | nil => exact (String.append_empty a).symm
  | cons s rest ih =>
      show List.foldl _ (a ++ s) rest = a ++ List.foldl _ ("" ++ s) rest
      rw [ih (a ++ s), ih ("" ++ s), String.empty_append, String.append_assoc]

theorem strJoin_cons (s : String) (l : List String) :
    String.join (s :: l) = s ++ String.join l := by
  show List.foldl _ ("" ++ s) l = s ++ List.foldl _ "" l
  rw [String.empty_append]
  exact strFoldlAppend l s

theorem specVisibleText_cons (c : GenChunk) (cs : List GenChunk) :
    specVisibleText (c :: cs) =
      (if c.hidden = false then c.text else "") ++ specVisibleText cs := by
  unfold specVisibleText
  rcases hc : c.hidden with _ | _
  · rw [List.filter_cons_of_pos (by simp [hc]), List.map_cons, strJoin_cons]
    simp [hc]
  · rw [List.filter_cons_of_neg (by simp [hc])]
    simp [hc, String.empty_append]

theorem specAllTokens_cons (c : GenChunk) (cs : List GenChunk) :
    specAllTokens (c :: cs) = c.tokens ++ specAllTokens cs := by
  unfold specAllTokens
  rw [List.map_cons, List.flatten_cons]

theorem textLoopAux_spec (cs : List GenChunk) (e : Option MsError) (acc : String) :
    textLoopAux cs e acc = (acc ++ specVisibleText cs, e) := by
  induction cs generalizing acc with
  | nil =>
      show (acc, e) = (acc ++ specVisibleText [], e)
      rw [show specVisibleText [] = "" from rfl, String.append_empty]
  | cons c rest ih =>
      show textLoopAux rest e _ = _
      rw [ih, specVisibleText_cons, ← String.append_assoc]
      rcases hc : c.hidden with _ | _ <;> simp [hc, String.append_empty]

theorem textTokensAux_spec (cs : List GenChunk) (e : Option MsError) (acc : String)
    (toks : List Int) :
    textTokensAux cs e acc toks = ((acc ++ specVisibleText cs, toks ++ specAllTokens cs), e) := by
  induction cs generalizing acc toks with
  | nil =>
      show ((acc, toks), e) = ((acc ++ specVisibleText [], toks ++ specAllTokens []), e)
      rw [show specVisibleText [] = "" from rfl, String.append_empty,
        show specAllTokens [] = [] from rfl, List.append_nil]
  | cons c rest ih =>
      show textTokensAux rest e _ _ = _
      rw [ih, specVisibleText_cons, specAllTokens_cons, ← String.append_assoc,
        ← List.append_assoc]
      rcases hc : c.hidden with _ | _ <;> simp [hc, String.append_empty]

theorem mapLookup_insert {α : Type} (m : List (String × α)) (k : String) (v : α) :
    mapLookup (mapInsert m k v) k = some v := by
  induction m with
  | nil => simp [mapInsert, mapLookup]
  | cons p rest ih =>
      unfold mapInsert
      by_cases hp : p.1 = k
      · simp [hp, mapLookup]
      · simp [hp, mapLookup, ih]

theorem generate_ok (s : SeqSt) (cid : String) (cfg : GenConfig) (hc : s.closed = false) :
    s.generate cid cfg none =
      { result := .ok (newGenStream cid),
        seq := { s with genStream := some (newGenStream cid) },
        sent := [newGenRequest cid s.id cfg.toSeqGenData] } := by
  simp [SeqSt.generate, hc]

theorem generate_eq_publish (s : SeqSt) (cid : String) (cfg : GenConfig)
    (hc : s.generateCheckClosed = false) :
    (s.generate cid cfg none).seq = s.generatePublish cid := by
  have hc' : s.closed = false := hc
  rw [generate_ok s cid cfg hc']
  rfl

theorem handleEvent_text_routes (s : SeqSt) (g : GenStreamSt) (e : MSEvent)
    (hg : s.genStream = some g) (he : e.event = "seq_text") :
    (s.handleEvent e).seq.genStream = some (g.handleText e) := by
  have hst : hevState s e = s := by simp [hevState, MSEvent.isSeqState, he]
  have htx : hevText s e = { s with genStream := some (g.handleText e) } := by
    simp [hevText, MSEvent.isSeqText, he, hg]
  have htc : ∀ s', hevToolCall s' e = s' := by
    intro s'; simp [hevToolCall, MSEvent.isSeqToolCall, he]
  have hgf : ∀ s', hevGenFinish s' e = (s', none) := by
    intro s'; simp [hevGenFinish, MSEvent.isSeqGenFinish, he]
  have hnc : e.isSeqClosed = false := by simp [MSEvent.isSeqClosed, he]
  simp only [SeqSt.handleEvent, hst, htx, htc, hgf, hnc]
  simp [hevCommands_genStream]

/-! ## Claim theorems -/

/-- C1: handling a `seq_gen_finish` detaches and finishes the active
GenStream if and only if the event's command id equals the stream's command
id; with any other command id (e.g. a later `tool_return` id) the active
stream stays in place and untouched, so after a `tool_return` the stream
remains active until a `seq_gen_finish` carrying the original `gen` command
id arrives. -/
theorem seqGenFinish_detach_iff_cid (s : SeqSt) (g : GenStreamSt) (e : MSEvent)
    (hg : s.genStream = some g) (he : e.event = "seq_gen_finish") :
    (g.cid = e.cid →
       (s.handleEvent e).seq.genStream = none ∧
       (s.handleEvent e).finished = some (g.handleFinish e)) ∧
    (g.cid ≠ e.cid →
       (s.handleEvent e).seq.genStream = some g ∧
       (s.handleEvent e).finished = none) := by
  have hst : hevState s e = s := by simp [hevState, MSEvent.isSeqState, he]
  have htx : hevText s e = s := by simp [hevText, MSEvent.isSeqText, he]
  have htc : hevToolCall s e = s := by simp [hevToolCall, MSEvent.isSeqToolCall, he]
  have hnc : e.isSeqClosed = false := by simp [MSEvent.isSeqClosed, he]
  constructor
  · intro hcid
    have hgf : hevGenFinish s e = ({ s with genStream := none }, some (g.handleFinish e)) := by
      simp [hevGenFinish, MSEvent.isSeqGenFinish, he, hg, hcid]
    simp only [SeqSt.handleEvent, hst, htx, htc, hgf, hnc]
    simp [hevCommands_genStream]
  · intro hcid
    have hgf : hevGenFinish s e = (s, none) := by
      simp [hevGenFinish, MSEvent.isSeqGenFinish, he, hg, hcid]
    simp only [SeqSt.handleEvent, hst, htx, htc, hgf, hnc]
    simp [hevCommands_genStream, hg]

/-- Witness for C1: a matching `seq_gen_finish` detaches and finishes the
stream; a `seq_gen_finish` with a different command id leaves it active. -/
theorem seqGenFinish_detach_iff_cid_witness :
    ((c1seq.handleEvent c1evMatch).seq.genStream = none ∧
       (c1seq.handleEvent c1evMatch).finished =
         some ((newGenStream "gcid").handleFinish c1evMatch)) ∧
    ((c1seq.handleEvent c1evOther).seq.genStream = some (newGenStream "gcid") ∧
       (c1seq.handleEvent c1evOther).finished = none) :=
  ⟨(seqGenFinish_detach_iff_cid c1seq (newGenStream "gcid") c1evMatch rfl rfl).1 rfl,
   (seqGenFinish_detach_iff_cid c1seq (newGenStream "gcid") c1evOther rfl rfl).2 (by decide)⟩

/-- C3: for any order and multiplicity of `handleFinish`/`handleClose`
calls on a fresh GenStream, the whole call sequence has the effect of its
first call alone (every later call is a no-op through the `closeOnce`
latch), and the consumer observes exactly one terminal outcome: the end
sentinel with the finish event's token counts, or the SequenceClosed
error. -/
theorem genStream_exactly_once_termination (cid : String) (c : TermCall)
    (cs : List TermCall) :
    applyTermCalls (newGenStream cid) (c :: cs) = applyTermCall (newGenStream cid) c ∧
    (applyTermCalls (newGenStream cid) (c :: cs)).terminalObs =
      some (match c with
            | .finishCall e => TermObs.endOut e.inputTokens e.outputTokens
            | .closeCall => TermObs.errOut .errSeqClosed) := by
  have h1 : applyTermCalls (newGenStream cid) (c :: cs) =
      applyTermCall (newGenStream cid) c := by
    show applyTermCalls (applyTermCall (newGenStream cid) c) cs = _
    exact applyTermCalls_latched cs _ (applyTermCall_sets_latch _ c)
  refine ⟨h1, ?_⟩
  rw [h1]
  cases c with
  | finishCall e => rfl
  | closeCall => rfl

/-- C4: on a finite stream that terminated with finish, the `Text`
accumulator returns the concatenation, in delivery order, of `chunk.text`
over exactly the chunks whose hidden flag is false (and no error). -/
theorem text_accumulation_law (g : GenStreamSt)
    (_hf : g.finished = true) (he : g.err = none) :
    g.textRun = (specVisibleText g.buffer, none) := by
  unfold GenStreamSt.textRun
  rw [he, textLoopAux_spec, String.empty_append]

/-- Witness for C4: three chunks `visible`/`hidden`/`visible2` with hidden
flags false/true/false accumulate to `visiblevisible2`. -/
theorem text_accumulation_law_witness :
    c4stream.finished = true ∧ c4stream.err = none ∧
    c4stream.textRun = (specVisibleText c4stream.buffer, none) ∧
    c4stream.textRun.1 = "visiblevisible2" :=
  ⟨rfl, rfl, text_accumulation_law c4stream rfl rfl, by decide⟩

/-- C9: on a finite stream that terminated with finish, `TextAndTokens`
skips the text of hidden chunks but keeps their token ids: the text is the
concatenation of non-hidden chunk texts while the token list concatenates
the `Tokens` fields of all chunks, hidden or not. -/
theorem textAndTokens_hidden_asymmetry (g : GenStreamSt)
    (_hf : g.finished = true) (he : g.err = none) :
    g.textTokensRun = ((specVisibleText g.buffer, specAllTokens g.buffer), none) := by
  unfold GenStreamSt.textTokensRun
  rw [he, textTokensAux_spec, String.empty_append]
  simp

/-- Witness for C9: a hidden chunk's text `B` is skipped while its tokens
`[2, 3]` are kept after the visible chunk's `[1]`. -/
theorem textAndTokens_hidden_asymmetry_witness :
    c9stream.finished = true ∧ c9stream.err = none ∧
    c9stream.textTokensRun =
      ((specVisibleText c9stream.buffer, specAllTokens c9stream.buffer), none) ∧
    c9stream.textTokensRun.1 = ("A", [1, 2, 3]) :=
  ⟨rfl, rfl, textAndTokens_hidden_asymmetry c9stream rfl rfl, by decide⟩

/-- Counterexample to C2 as stated: with the first stream (`cid1`) not
terminated, a second `Generate` is not rejected (it returns ok with the
`cid2` stream), and the second returned stream does receive chunks — the
next `seq_text` event is delivered into it. -/
theorem second_generate_counterexample :
    c2gen1.result = Except.ok (newGenStream "cid1") ∧
    (newGenStream "cid1").closeOnceDone = false ∧
    c2gen2.result = Except.ok (newGenStream "cid2") ∧
    c2after.genStream =
      some { newGenStream "cid2" with buffer := [{ text := "hello" }] } :=
  ⟨rfl, rfl, rfl, rfl⟩

/-- C2 amended: at any instant at most one GenStream is attached to a
sequence (the active-stream field holds at most one), but a second
`Generate` while the first stream is unterminated is accepted and silently
replaces the active stream: the second call returns ok, and subsequent
`seq_text` chunks are delivered to the second stream (the first receives no
further chunks because it is no longer the active stream). -/
theorem second_generate_replaces_stream (s : SeqSt) (cid1 cid2 : String)
    (cfg1 cfg2 : GenConfig) (e : MSEvent)
    (hc : s.closed = false) (he : e.event = "seq_text") :
    ((s.generate cid1 cfg1 none).seq.generate cid2 cfg2 none).result =
      Except.ok (newGenStream cid2) ∧
    ((s.generate cid1 cfg1 none).seq.generate cid2 cfg2 none).seq.genStream =
      some (newGenStream cid2) ∧
    ((((s.generate cid1 cfg1 none).seq.generate cid2 cfg2 none).seq.handleEvent e).seq.genStream
      = some ((newGenStream cid2).handleText e)) := by
  have hc1 : (s.generate cid1 cfg1 none).seq.closed = false := by
    rw [generate_seq_closed]; exact hc
  have h2 := generate_ok (s.generate cid1 cfg1 none).seq cid2 cfg2 hc1
  refine ⟨by rw [h2], by rw [h2], ?_⟩
  exact handleEvent_text_routes _ _ e (by rw [h2]) he

/-- Witness for the amended C2, at the concrete two-`Generate` run used by
the counterexample. -/
theorem second_generate_replaces_stream_witness :
    c2gen2.result = Except.ok (newGenStream "cid2") ∧
    c2gen2.seq.genStream = some (newGenStream "cid2") ∧
    c2after.genStream = some ((newGenStream "cid2").handleText c2textEv) :=
  second_generate_replaces_stream (newSeq "s1" none) "cid1" "cid2" {} {} c2textEv rfl rfl

/-- C5: `Seq.Close` on an already-closed sequence returns ok immediately,
sending no frame and registering no waiter; `Client.Close` on an
already-closed client returns success without re-closing the transport or
re-running close propagation. -/
theorem close_idempotent :
    (∀ (s : SeqSt) (cid : String) (sendErr : Option MsError) (ev : MSEvent),
       s.closed = true → s.close cid sendErr ev = { result := .ok () }) ∧
    (∀ (c : ClientSt) (terr : Option MsError),
       c.closed = true → c.closeConn terr = { result := none, client := c }) := by
  constructor
  · intro s cid sendErr ev h
    simp [SeqSt.close, h]
  · intro c terr h
    simp [ClientSt.closeConn, h]

/-- Witness for C5 at a concrete closed sequence and closed client. -/
theorem close_idempotent_witness :
    c5seq.close "cid-x" none { event := "seq_closed" } = { result := .ok () } ∧
    c5client.closeConn none = { result := none, client := c5client } :=
  ⟨close_idempotent.1 c5seq "cid-x" none { event := "seq_closed" } rfl,
   close_idempotent.2 c5client none rfl⟩

/-- Counterexample to C6 as stated: `Seq.Generate`'s closed-check and its
stream-publish are separate critical sections, so close propagation can run
between them. Here the check observes an open sequence, `handleClose` then
closes it (with no stream yet attached it detaches and terminates nothing),
and the publish phase afterwards leaves a closed sequence holding an active
stream whose `closeOnce` latch never fired — an active GenStream on a
closed sequence that close propagation did not terminate. -/
theorem closed_seq_race_counterexample :
    c6openSeq.generateCheckClosed = false ∧
    (c6openSeq.handleClose (some c6closedEv)).seq.closed = true ∧
    (c6openSeq.handleClose (some c6closedEv)).aborted = none ∧
    c6raceSeq.closed = true ∧
    c6raceSeq.genStream = some (newGenStream "cid1") ∧
    (newGenStream "cid1").closeOnceDone = false ∧
    (newGenStream "cid1").chunksClosed = false :=
  ⟨rfl, rfl, rfl, rfl, rfl, rfl, rfl⟩

/-- C6 amended: on any sequence whose closed flag is set, `Append`,
`Generate`, `Fork` and `ToolReturn` fail immediately with SequenceClosed
without sending a frame or registering a waiter; close propagation sets the
closed flag and detaches and terminates the then-active stream (if any) in
the same critical section — but a `Generate` whose closed-check passed
before close propagation ran may still publish an unterminated stream
afterwards, so a closed sequence need not be stream-free. -/
theorem closed_seq_ops_fail (s : SeqSt) (hc : s.closed = true) :
    (∀ (cid : String) (cfg : AppendConfig) (text : String) (sendErr : Option MsError)
       (ev : MSEvent),
       s.append cid cfg text sendErr ev = { result := .error .errSeqClosed }) ∧
    (∀ (cid : String) (cfg : GenConfig) (sendErr : Option MsError),
       s.generate cid cfg sendErr = { result := .error .errSeqClosed, seq := s }) ∧
    (∀ (c : ClientSt) (cid : String) (sendErr : Option MsError) (ev : MSEvent),
       s.fork c cid sendErr ev = ({ result := .error .errSeqClosed }, c)) ∧
    (∀ (cid : String) (results : List ToolResult) (sendErr : Option MsError),
       s.toolReturn cid results sendErr = { result := .error .errSeqClosed }) ∧
    (∀ (s' : SeqSt) (g : GenStreamSt) (ev : Option MSEvent),
       s'.closed = false → s'.genStream = some g →
       (s'.handleClose ev).seq.closed = true ∧
       (s'.handleClose ev).seq.genStream = none ∧
       (s'.handleClose ev).aborted = some g.handleClose ∧
       g.handleClose.closeOnceDone = true) := by
  refine ⟨?_, ?_, ?_, ?_, ?_⟩
  · intro cid cfg text sendErr ev
    simp [SeqSt.append, hc]
  · intro cid cfg sendErr
    simp [SeqSt.generate, hc]
  · intro c cid sendErr ev
    simp [SeqSt.fork, hc]
  · intro cid results sendErr
    simp [SeqSt.toolReturn, hc]
  · intro s' g ev hc' hg'
    refine ⟨?_, ?_, ?_, handleClose_latch g⟩ <;> simp [SeqSt.handleClose, hc', hg']

/-- Witness for the amended C6 at a sequence closed by a `seq_closed`
event. -/
theorem closed_seq_ops_fail_witness :
    c6closedSeq.closed = true ∧
    c6closedSeq.append "c" {} "t" none { event := "seq_append_finish" } =
      { result := .error .errSeqClosed } ∧
    c6closedSeq.generate "c" {} none =
      { result := .error .errSeqClosed, seq := c6closedSeq } := by
  have h := closed_seq_ops_fail c6closedSeq rfl
  exact ⟨rfl, h.1 "c" {} "t" none { event := "seq_append_finish" }, h.2.1 "c" {} none⟩

/-- Counterexample to C7 as stated: `Next`'s three-way `select` with an
already-triggered cancellation token and a non-empty buffer may choose the
buffer receive, returning a chunk (not the Cancelled error) and consuming
it from the buffer. -/
theorem next_precancelled_counterexample :
    NextStep true c7g (NextRes.chunk { text := "buffered" }, { c7g with buffer := [] }) ∧
    NextRes.chunk { text := "buffered" } ≠ NextRes.done (some MsError.cancelled) ∧
    ({ c7g with buffer := [] } : GenStreamSt).buffer ≠ c7g.buffer := by
  refine ⟨?_, by decide, by decide⟩
  exact NextStep.recvChunk true c7g { text := "buffered" } [] rfl

/-- C7 amended: on a stream whose buffer is empty and whose channels are
not closed, `Next` with an already-triggered cancellation token returns the
Cancelled error immediately and the buffer is unchanged; with buffered
chunks (or closed channels), `Next` may instead return a chunk or the
terminal outcome. -/
theorem next_precancelled_empty_buffer (g : GenStreamSt) (res : NextRes)
    (g' : GenStreamSt)
    (hb : g.buffer = []) (hcc : g.chunksClosed = false) (hd : g.doneClosed = false)
    (hstep : NextStep true g (res, g')) :
    res = NextRes.done (some MsError.cancelled) ∧ g' = g := by
  cases hstep <;> simp_all

/-- Witness for the amended C7 at a fresh stream. -/
theorem next_precancelled_empty_buffer_witness :
    NextRes.done (some MsError.cancelled) = NextRes.done (some MsError.cancelled) ∧
    newGenStream "w" = newGenStream "w" :=
  next_precancelled_empty_buffer (newGenStream "w") _ _ rfl rfl rfl
    (NextStep.cancel (newGenStream "w"))

/-- C8: `Fork` on an open sequence sends the fork command with the supplied
fresh command id; a `seq_fork_finish` reply yields a new sequence whose id
is the event's `child_seq_id`, carrying the parent's toolbox, registered in
the client's sequence map so that later events with that sequence id route
to it; an `error` reply yields a Protocol error; any other reply kind
yields UnexpectedEvent. -/
theorem fork_success_and_errors (s : SeqSt) (c : ClientSt) (cid : String)
    (e : MSEvent) (hc : s.closed = false) :
    (e.event = "seq_fork_finish" →
       (s.fork c cid none e).1.result = Except.ok (newSeq e.childSeqId s.toolbox) ∧
       (s.fork c cid none e).1.sent = [newForkRequest cid s.id] ∧
       mapLookup (s.fork c cid none e).2.seqs e.childSeqId =
         some (newSeq e.childSeqId s.toolbox) ∧
       (∀ e2 : MSEvent, e2.event = "seq_text" → e2.seqId = e.childSeqId →
          e2.seqId ≠ "" →
          (s.fork c cid none e).2.routeTarget e2 = .toSeq e.childSeqId)) ∧
    (e.event = "error" →
       (s.fork c cid none e).1.result =
         Except.error (.protocol e.message e.seqId e.cid)) ∧
    (e.event ≠ "error" → e.event ≠ "seq_fork_finish" →
       (s.fork c cid none e).1.result = Except.error .errUnexpectedEvent) := by
  refine ⟨?_, ?_, ?_⟩
  · intro he
    have hne : e.isError = false := by simp [MSEvent.isError, he]
    have hff : e.isSeqForkFinish = true := by simp [MSEvent.isSeqForkFinish, he]
    have hfork : s.fork c cid none e =
        ({ result := .ok (newSeq e.childSeqId s.toolbox),
           sent := [newForkRequest cid s.id], registered := [cid] },
         { c with seqs := mapInsert c.seqs e.childSeqId (newSeq e.childSeqId s.toolbox) }) := by
      simp [SeqSt.fork, hc, hne, hff, newSeq]
    refine ⟨by rw [hfork], by rw [hfork], ?_, ?_⟩
    · rw [hfork]
      exact mapLookup_insert c.seqs e.childSeqId (newSeq e.childSeqId s.toolbox)
    · intro e2 he2 hs2 hne2
      have hop : e2.isSeqOpened = false := by simp [MSEvent.isSeqOpened, he2]
      have her : e2.isError = false := by simp [MSEvent.isError, he2]
      rw [hfork]
      simp only [ClientSt.routeTarget, hop, her]
      rw [hs2] at hne2 ⊢
      simp only [hne2]
      rw [mapLookup_insert c.seqs e.childSeqId (newSeq e.childSeqId s.toolbox)]
      simp [hne2]
  · intro he
    have hie : e.isError = true := by simp [MSEvent.isError, he]
    simp [SeqSt.fork, hc, hie]
  · intro hne hnf
    have h1 : e.isError = false := by simp [MSEvent.isError, hne]
    have h2 : e.isSeqForkFinish = false := by simp [MSEvent.isSeqForkFinish, hnf]
    simp [SeqSt.fork, hc, h1, h2]

/-- Witness for C8: a concrete fork whose reply names child `s2`, plus the
error and unexpected-event replies. -/
theorem fork_success_and_errors_witness :
    (c8seq.fork c8client "cid-f" none c8forkEv).1.result =
      Except.ok (newSeq "s2" c8toolbox) ∧
    mapLookup (c8seq.fork c8client "cid-f" none c8forkEv).2.seqs "s2" =
      some (newSeq "s2" c8toolbox) ∧
    (c8seq.fork c8client "cid-f" none c8forkEv).2.routeTarget c8textEv = .toSeq "s2" ∧
    (c8seq.fork c8client "cid-f" none c8errEv).1.result =
      Except.error (.protocol "boom" "s1" "cid-f") ∧
    (c8seq.fork c8client "cid-f" none c8otherEv).1.result =
      Except.error .errUnexpectedEvent := by
  have h1 := (fork_success_and_errors c8seq c8client "cid-f" c8forkEv rfl).1 rfl
  have h2 := (fork_success_and_errors c8seq c8client "cid-f" c8errEv rfl).2.1 rfl
  have h3 := (fork_success_and_errors c8seq c8client "cid-f" c8otherEv rfl).2.2
    (by decide) (by decide)
  exact ⟨h1.1, h1.2.2.1, h1.2.2.2 c8textEv rfl rfl (by decide), h2, h3⟩

/-- C10: the `seq_open` request's tool prompt comes only from the supplied
toolbox's tool instructions (empty when no toolbox or empty instructions);
the `WithToolPrompt` option value is never placed in the request; and
`tools_enabled` is set exactly when a toolbox was supplied. -/
theorem open_tool_prompt_from_toolbox (model : String) (cfg : OpenConfig) (p : String) :
    (buildOpenData model cfg).toolPrompt =
      (cfg.toolbox.map ToolboxSt.toolInstructions).getD "" ∧
    buildOpenData model (withToolPrompt p cfg) = buildOpenData model cfg ∧
    (buildOpenData model cfg).toolsEnabled = cfg.toolbox.isSome := by
  refine ⟨?_, ?_, ?_⟩
  · rcases htb : cfg.toolbox with _ | tb
    · simp [buildOpenData, htb]
    · by_cases hi : tb.toolInstructions = ""
      · simp [buildOpenData, htb, hi]
      · simp [buildOpenData, htb, hi]
  · rfl
  · rcases htb : cfg.toolbox with _ | tb
    · simp [buildOpenData, htb]
    · by_cases hi : tb.toolInstructions = ""
      · simp [buildOpenData, htb, hi]
      · simp [buildOpenData, htb, hi]

end ModelSocketGo
